import Mathlib

/-!
Verification development for the `yagooglesearch` library
(`src/src/yagooglesearch/__init__.py`, version 1.10.0; a legacy variant of the
same module lives in `src/yagooglesearch/__init__.py`).

The development shallowly embeds the parts of the program the claims are
about:

* `filter_search_result_urls` (source lines 279-323) together with the
  fragment of CPython `urllib.parse` it uses (`urlsplit` restricted to
  scheme/netloc/query/fragment splitting, `parse_qs`/`parse_qsl`,
  `unquote_plus`).  Python exceptions are made explicit as `Except PyExc`.
* `http_429_detected` (lines 325-336) with 2-decimal rounding modelled on
  rationals using round-half-to-even.
* `get_page` (lines 338-435): the HTTP transport is modelled as a list of
  pending responses consumed in order; a response either carries the page
  anchors (the HTML-parsing collaborator BeautifulSoup is external, so a
  successful page is modelled directly as the anchor list it parses to),
  is an HTTP 429, or is some other status code.
* `search` (lines 437-602): the pagination loop, modelled with explicit
  fuel (each iteration consumes at least one pending response, so fuel
  `responses.length + 1` is never exhausted on the runs considered here).

Modelling scope notes (external-library details not needed by any claim):
strings are treated as their character lists; `.lower()`/`.strip()` are
ASCII; `urlsplit`'s bracketed-host validation beyond bracket matching and
its non-ASCII netloc check are not modelled; percent-decoding is per
character rather than per UTF-8 byte sequence.
-/

namespace YGS

/-- Python exceptions that can escape the modelled urllib fragment. -/
inductive PyExc where
  | keyError
  | valueError
deriving DecidableEq

/-- Scheme characters accepted by `urllib.parse` after the initial letter
(`scheme_chars` = ASCII letters, digits, `+`, `-`, `.`). -/
def schemeChar (c : Char) : Bool :=
  c.isAlpha || c.isDigit || c = '+' || c = '-' || c = '.'

/-- ASCII lowering of a character list (Python `str.lower` on the ASCII
fragment relevant here). -/
def lowerList (l : List Char) : List Char :=
  l.map Char.toLower

/-- `urllib.parse.urlsplit` preprocessing: strip leading C0-control-or-space
characters, then remove tab, CR and LF everywhere. -/
def sanitizeUrl (url : String) : List Char :=
  (url.toList.dropWhile fun c => c.toNat ≤ 32).filter
    fun c => !(c = '\t' || c = '\r' || c = '\n')

/-- Result of `urllib.parse.urlsplit` (the `params` component of `urlparse`
is irrelevant to the embedded code, which only reads `netloc` and `query`). -/
structure UrlSplitResult where
  scheme : List Char
  netloc : List Char
  path : List Char
  query : List Char
  fragment : List Char
deriving DecidableEq

/-- Scheme detection of `urlsplit`: if the first `:` occurs at index `i > 0`,
the first character is an ASCII letter and the characters up to `i` are all
scheme characters, the scheme is that prefix lowercased and the rest follows
the colon; otherwise the default scheme is kept and the URL is untouched. -/
def detectScheme (dflt : List Char) (l : List Char) : List Char × List Char :=
  match l.dropWhile (fun c => c ≠ ':'), l.takeWhile (fun c => c ≠ ':') with
  | _ :: rest, c0 :: cs =>
      if c0.isAlpha && cs.all schemeChar then (lowerList (c0 :: cs), rest)
      else (dflt, l)
  | _, _ => (dflt, l)

/-- `urllib.parse._splitnetloc`: the netloc extends to the first `/`, `?`
or `#` after the leading `//`. -/
def splitNetlocAux : List Char → List Char × List Char
  | [] => ([], [])
  | c :: cs =>
      if c = '/' || c = '?' || c = '#' then ([], c :: cs)
      else
        let p := splitNetlocAux cs
        (c :: p.1, p.2)

/-- `urllib.parse.urlsplit url scheme=dflt` restricted to the components the
program reads.  Raises `ValueError` on an unmatched `[`/`]` in the netloc. -/
def urlsplitCore (dflt : List Char) (url : String) : Except PyExc UrlSplitResult :=
  let sp := detectScheme dflt (sanitizeUrl url)
  let np : List Char × List Char :=
    match sp.2 with
    | '/' :: '/' :: tail => splitNetlocAux tail
    | rest => ([], rest)
  if (np.1.contains '[' && !np.1.contains ']') ||
      (np.1.contains ']' && !np.1.contains '[') then
    .error .valueError
  else
    let fp : List Char × List Char :=
      if np.2.contains '#' then
        (np.2.takeWhile (fun c => c ≠ '#'), (np.2.dropWhile (fun c => c ≠ '#')).tail)
      else (np.2, [])
    let qp : List Char × List Char :=
      if fp.1.contains '?' then
        (fp.1.takeWhile (fun c => c ≠ '?'), (fp.1.dropWhile (fun c => c ≠ '?')).tail)
      else (fp.1, [])
    .ok ⟨sp.1, np.1, qp.1, qp.2, fp.2⟩

/-- Hexadecimal digit value, as used by percent-decoding. -/
def hexVal (c : Char) : Option Nat :=
  if '0' ≤ c && c ≤ '9' then some (c.toNat - 48)
  else if 'a' ≤ c && c ≤ 'f' then some (c.toNat - 87)
  else if 'A' ≤ c && c ≤ 'F' then some (c.toNat - 55)
  else none

/-- `urllib.parse.unquote`: decode `%XX` escapes; invalid escapes are kept
verbatim. -/
def percentDecode : List Char → List Char
  | '%' :: a :: b :: rest =>
      match hexVal a, hexVal b with
      | some x, some y => Char.ofNat (16 * x + y) :: percentDecode rest
      | _, _ => '%' :: percentDecode (a :: b :: rest)
  | c :: rest => c :: percentDecode rest
  | [] => []

/-- `urllib.parse.unquote_plus`: `+` becomes a space, then percent-decode. -/
def pyUnquotePlus (l : List Char) : List Char :=
  percentDecode (l.map fun c => if c = '+' then ' ' else c)

/-- `urllib.parse.parse_qsl` with its defaults (`keep_blank_values=False`,
`strict_parsing=False`, separator `&`): empty fields, fields without `=` and
fields with an empty value are skipped; names and values are plus-and-percent
decoded. -/
def parseQsl (qs : List Char) : List (List Char × List Char) :=
  (qs.splitOn '&').filterMap fun field =>
    if field.isEmpty then none
    else if field.contains '=' then
      let value := (field.dropWhile (fun c => c ≠ '=')).tail
      if value.isEmpty then none
      else some (pyUnquotePlus (field.takeWhile (fun c => c ≠ '=')),
                 pyUnquotePlus value)
    else none

/-- `urllib.parse.parse_qs(qs)[key][0]`: the first value listed for `key`,
or `none` when the key is absent (Python raises `KeyError` there). -/
def parseQsFirst (qs : List Char) (key : List Char) : Option (List Char) :=
  (parseQsl qs).findSome? fun nv => if nv.1 = key then some nv.2 else none

/-- Python `str.startswith`. -/
def pyStartsWith (s : String) (pre : String) : Bool :=
  pre.toList.isPrefixOf s.toList

/-- Python `str.strip()`: remove leading and trailing whitespace. -/
def pyStrip (s : String) : String :=
  String.mk
    (((s.toList.dropWhile Char.isWhitespace).reverse.dropWhile
        Char.isWhitespace).reverse)

/-- Python substring membership `needle in hay`. -/
def containsSub (needle : List Char) : List Char → Bool
  | [] => needle.isEmpty
  | c :: cs => needle.isPrefixOf (c :: cs) || containsSub needle cs

/-- The body of `SearchClient.filter_search_result_urls` (lines 290-316)
inside its outer `try`, with every Python exception explicit.  Structure:
redirect-wrapper decoding (`/url?` or `http://www.google.com/url?` prefix;
`q` query key, falling back to `url`, `KeyError` when both are absent), then
re-parsing and the netloc checks. -/
def filterPipeline (link : String) : Except PyExc (Option String) := do
  let link1 ←
    if pyStartsWith link "/url?" || pyStartsWith link "http://www.google.com/url?" then do
      let uo ← urlsplitCore "http".toList link
      match parseQsFirst uo.query "q".toList with
      | some v => pure (String.mk v)
      | none =>
          match parseQsFirst uo.query "url".toList with
          | some v => pure (String.mk v)
          | none => throw PyExc.keyError
    else pure link
  let uo2 ← urlsplitCore "http".toList link1
  if uo2.netloc.isEmpty then
    return none
  else if containsSub "google".toList (lowerList uo2.netloc) then
    return none
  else
    return some link1

/-- `SearchClient.filter_search_result_urls` (lines 279-323): the outer
`try`/`except` maps any exception in the pipeline to `None`. -/
def filter_search_result_urls (link : String) : Option String :=
  match filterPipeline link with
  | .ok r => r
  | .error _ => none

/-- Python `round` to an integer: round half to even, modelled on `ℚ`. -/
def rhe (q : ℚ) : ℤ :=
  if q - ⌊q⌋ < 1 / 2 then ⌊q⌋
  else if 1 / 2 < q - ⌊q⌋ then ⌈q⌉
  else if ⌊q⌋ % 2 = 0 then ⌊q⌋ else ⌈q⌉

/-- Python `round(x, 2)`: round to two decimal places. -/
def round2 (q : ℚ) : ℚ :=
  (rhe (q * 100) : ℚ) / 100

/-- `SearchClient.http_429_detected` (lines 325-336): the cool-off duration
update applied on each detected HTTP 429,
`d ↦ round(d * http_429_cool_off_factor, 2)`. -/
def coolOffStep (factor : ℚ) (d : ℚ) : ℚ :=
  round2 (d * factor)

/-- One anchor element of a results page, as the HTML-parsing collaborator
delivers it to the loop: the optional `href` attribute, the anchor text
(title) and the description text found near it. -/
structure Anchor where
  href : Option String
  title : String
  descr : String
deriving DecidableEq

/-- One pending HTTP response of the modelled transport.  A 200 response to
a search URL parses to its list of anchors; any other status yields an empty
document (lines 411-435: `html` stays `""` unless the status is 200). -/
inductive HttpResponse where
  | ok (anchors : List Anchor)
  | status429
  | other (code : Nat)
deriving DecidableEq

/-- A blocking wait performed by the session: the HTTP 429 cool-off sleep
(`time.sleep(cool * 60)`, recorded in seconds) or the randomized inter-page
delay (recorded by the lower bound of its window,
`minimum_delay_between_paged_results_in_seconds`). -/
inductive SleepEvent where
  | coolOff (seconds : ℚ)
  | interPage (minSeconds : Nat)
deriving DecidableEq

/-- What `get_page` hands back to the loop: the parsed page, the literal
sentinel string `"HTTP_429_DETECTED"`, or a transport failure (the pending
response list was exhausted; `requests.get` would raise). -/
inductive PageOutcome where
  | html (anchors : List Anchor)
  | sentinel
  | transportFailure
deriving DecidableEq

/-- Result of a `get_page` call: its outcome, the responses still pending,
the cool-off duration after the call, and the sleeps it performed. -/
structure GetPageResult where
  outcome : PageOutcome
  rest : List HttpResponse
  cool : ℚ
  sleeps : List SleepEvent
deriving DecidableEq

/-- `SearchClient.get_page` (lines 338-435).  Status 200 returns the page;
status 429 with `yagooglesearch_manages_http_429s=False` returns the
sentinel at once (lines 421-423); status 429 otherwise sleeps for the
current cool-off duration, escalates it via `http_429_detected`, and retries
recursively (lines 425-430); any other status returns an empty document. -/
def getPage (manages : Bool) (factor : ℚ) : ℚ → List HttpResponse → GetPageResult
  | cool, [] => ⟨.transportFailure, [], cool, []⟩
  | cool, .ok anchors :: rest => ⟨.html anchors, rest, cool, []⟩
  | cool, .other _ :: rest => ⟨.html [], rest, cool, []⟩
  | cool, .status429 :: rest =>
      if manages then
        let r := getPage manages factor (coolOffStep factor cool) rest
        ⟨r.outcome, r.rest, r.cool, .coolOff (cool * 60) :: r.sleeps⟩
      else ⟨.sentinel, rest, cool, []⟩

/-- An element of `search_result_list`: a plain string (a URL, or the
sentinel `"HTTP_429_DETECTED"`), or the dict appended in verbose mode
(lines 556-564).  Python `==` between a string and a dict is `False`, which
the two constructors mirror. -/
inductive ResultItem where
  | str (s : String)
  | record (rank : ℤ) (title : String) (descr : String) (url : String)
deriving DecidableEq

/-- The session configuration consumed by `search` (constructor arguments
after the `__init__` clamping; `cool0` is `http_429_cool_off_time_in_minutes`). -/
structure Config where
  num : ℤ
  maxResults : ℤ
  extraParams : List (String × String)
  minDelay : Nat
  manages429 : Bool
  cool0 : ℚ
  factor : ℚ
  verbose : Bool
  start : ℤ
deriving DecidableEq

/-- `self.url_parameters` (lines 200-210): the built-in GET parameter names
checked against `extra_params`. -/
def urlParameters : List String :=
  ["btnG", "cr", "hl", "num", "q", "safe", "start", "tbs", "lr"]

/-- No caller-supplied extra parameter collides with a built-in one. -/
def noCollision (cfg : Config) : Prop :=
  ∀ p ∈ urlParameters, (cfg.extraParams.map Prod.fst).contains p = false

instance (cfg : Config) : Decidable (noCollision cfg) :=
  inferInstanceAs (Decidable (∀ p ∈ urlParameters, _ = false))

/-- What one anchor contributes to the loop: `none` when the href is missing
(lines 517-521), when `filter_search_result_urls` rejects it, or when the
filtered link is falsy (`if not link: continue`, lines 524-526). -/
def extractedLink (a : Anchor) : Option String :=
  match a.href with
  | none => none
  | some h =>
      match filter_search_result_urls h with
      | none => none
      | some l => if l = "" then none else some l

/-- State after scanning (a prefix of) one page of anchors: the accumulated
result list, `total_valid_links_found`, `valid_links_found_in_this_search`,
and whether the mid-page cap check fired. -/
structure PageScan where
  results : List ResultItem
  total : ℤ
  pageCount : Nat
  capHit : Bool
deriving DecidableEq

/-- The `for a in anchors` body of `search` (lines 515-573): skip anchors
without a valid link; append a new unique link as a plain URL or a verbose
record and bump both counters; after every valid link check
`max_search_result_urls_to_return <= len(search_result_list)` and stop
mid-page when it holds. -/
def processAnchors (verbose : Bool) (maxResults : ℤ) :
    List Anchor → List ResultItem → ℤ → Nat → PageScan
  | [], results, total, pc => ⟨results, total, pc, false⟩
  | a :: rest, results, total, pc =>
      match extractedLink a with
      | none => processAnchors verbose maxResults rest results total pc
      | some link =>
          let step : List ResultItem × ℤ × Nat :=
            if results.contains (.str link) then (results, total, pc)
            else
              (results ++ [if verbose then
                  .record (total + 1) (pyStrip a.title) (pyStrip a.descr) link
                else .str link],
               total + 1, pc + 1)
          if maxResults ≤ (step.1.length : ℤ) then
            ⟨step.1, step.2.1, step.2.2, true⟩
          else processAnchors verbose maxResults rest step.1 step.2.1 step.2.2

/-- Mutable state of the pagination loop between iterations. -/
structure SearchState where
  start : ℤ
  cool : ℚ
  results : List ResultItem
  total : ℤ
  requests : Nat
  sleeps : List SleepEvent
deriving DecidableEq

/-- Why the pagination loop returned a result list. -/
inductive StopReason where
  | sentinel429
  | capReached
  | pageExhausted
deriving DecidableEq

/-- Observable outcome of `search()`: a `ValueError` before any request, a
returned result list (with the number of requests issued, the sleeps
performed, and the responses left untouched), the implicit `return None`
when the loop guard fails, a propagated transport failure, or exhaustion of
the modelling fuel (unreachable when the fuel exceeds the response count). -/
inductive SearchOutcome where
  | valueError (param : String)
  | done (results : List ResultItem) (reason : StopReason) (requests : Nat)
      (sleeps : List SleepEvent) (rest : List HttpResponse)
  | noneReturned (requests : Nat) (sleeps : List SleepEvent)
      (rest : List HttpResponse)
  | transportFailure (requests : Nat) (sleeps : List SleepEvent)
      (rest : List HttpResponse)
  | fuelExhausted (requests : Nat) (sleeps : List SleepEvent)
      (rest : List HttpResponse)
deriving DecidableEq

/-- The `while total_valid_links_found <= max_search_result_urls_to_return`
loop of `search` (lines 465-602).  Each iteration fetches one results page
via `getPage`; the sentinel is appended and returned at once (lines
491-495); otherwise the anchors are scanned, the mid-page cap check (lines
571-573) or the zero-valid-links check (lines 575-579) may end the search;
else `start += num`, an inter-page delay is slept, and the loop repeats.
When the guard fails, Python falls off the loop and returns `None`. -/
def searchLoop (cfg : Config) : Nat → SearchState → List HttpResponse → SearchOutcome
  | 0, st, rs => .fuelExhausted st.requests st.sleeps rs
  | fuel + 1, st, rs =>
      if st.total ≤ cfg.maxResults then
        let gp := getPage cfg.manages429 cfg.factor st.cool rs
        match gp.outcome with
        | .transportFailure => .transportFailure (st.requests + 1) (st.sleeps ++ gp.sleeps) gp.rest
        | .sentinel =>
            .done (st.results ++ [.str "HTTP_429_DETECTED"]) .sentinel429
              (st.requests + 1) (st.sleeps ++ gp.sleeps) gp.rest
        | .html anchors =>
            let scan := processAnchors cfg.verbose cfg.maxResults anchors st.results st.total 0
            if scan.capHit then
              .done scan.results .capReached (st.requests + 1) (st.sleeps ++ gp.sleeps) gp.rest
            else if scan.pageCount = 0 then
              .done scan.results .pageExhausted (st.requests + 1) (st.sleeps ++ gp.sleeps) gp.rest
            else
              searchLoop cfg fuel
                { start := st.start + cfg.num, cool := gp.cool,
                  results := scan.results, total := scan.total,
                  requests := st.requests + 1,
                  sleeps := st.sleeps ++ gp.sleeps ++ [.interPage cfg.minDelay] }
                gp.rest
      else .noneReturned st.requests st.sleeps rs

/-- `SearchClient.search` (lines 437-602): check `extra_params` against the
built-in parameter names, raising `ValueError` at the first collision before
any network activity (lines 452-458); fetch the home page once to seed
cookies, ignoring its content (line 461); then run the pagination loop. -/
def search (cfg : Config) (rs : List HttpResponse) : SearchOutcome :=
  match urlParameters.find? (fun p => (cfg.extraParams.map Prod.fst).contains p) with
  | some p => .valueError p
  | none =>
      let gp := getPage cfg.manages429 cfg.factor cfg.cool0 rs
      match gp.outcome with
      | .transportFailure => .transportFailure 1 gp.sleeps gp.rest
      | _ =>
          searchLoop cfg (gp.rest.length + 1)
            { start := cfg.start, cool := gp.cool, results := [], total := 0,
              requests := 1, sleeps := gp.sleeps }
            gp.rest

/-- The `num` clamping in `SearchClient.__init__` (lines 181-183):
`if self.num > 100: self.num = 100`. -/
def initNum (num : ℤ) : ℤ :=
  if 100 < num then 100 else num

/-- A redirect-wrapper anchor whose target is the URL of claim C5. -/
def wrapAnchor : Anchor :=
  ⟨some "/url?q=https://example.com/page&sa=U", "t", "d"⟩

/-- An anchor with a plain valid target URL. -/
def orgAnchorA : Anchor := ⟨some "https://example.org/a", "", ""⟩

/-- A second anchor with a distinct valid target URL. -/
def orgAnchorB : Anchor := ⟨some "https://example.org/b", "", ""⟩

/-- Anchors none of which yields a valid link: a missing href, a relative
URL without a netloc, and a link to the provider itself. -/
def noLinkAnchors : List Anchor :=
  [⟨none, "", ""⟩, ⟨some "relative/path", "", ""⟩,
   ⟨some "https://www.google.com/maps", "", ""⟩]

/-- A session configuration with the constructor defaults. -/
def baseConfig : Config :=
  { num := 100, maxResults := 100, extraParams := [], minDelay := 7,
    manages429 := true, cool0 := 60, factor := 11 / 10, verbose := false,
    start := 0 }

/-- The default configuration with `verbose_output=True`. -/
def verboseConfig : Config := { baseConfig with verbose := true }

/-- The default configuration with `yagooglesearch_manages_http_429s=False`. -/
def unmanagedConfig : Config := { baseConfig with manages429 := false }

/-- The default configuration with `max_search_result_urls_to_return=1`. -/
def capOneConfig : Config := { baseConfig with maxResults := 1 }

/-- The default configuration with `max_search_result_urls_to_return=0`. -/
def capZeroConfig : Config := { baseConfig with maxResults := 0 }

/-- The default configuration with `max_search_result_urls_to_return=-1`. -/
def capNegConfig : Config := { baseConfig with maxResults := -1 }

/-- A configuration whose `extra_params` map contains the built-in key
`num` next to a harmless key. -/
def collisionConfig : Config :=
  { baseConfig with extraParams := [("filter", "0"), ("num", "50")] }

/-! ## Helper lemmas -/

theorem floor_le_rhe (q : ℚ) : ⌊q⌋ ≤ rhe q := by
  unfold rhe
  split
  · exact le_refl _
  · split
    · exact Int.floor_le_ceil q
    · split
      · exact le_refl _
      · exact Int.floor_le_ceil q

theorem le_coolOffStep (f d : ℚ) (hd : 0 ≤ d) (hf : 1 ≤ f)
    (k : ℤ) (hk : (k : ℚ) = d * 100) : d ≤ coolOffStep f d := by
  have h1 : (k : ℚ) ≤ d * f * 100 := by
    rw [hk]
    have : d * 1 ≤ d * f := mul_le_mul_of_nonneg_left hf hd
    nlinarith
  have h2 : k ≤ ⌊d * f * 100⌋ := Int.le_floor.mpr h1
  have h3 : k ≤ rhe (d * f * 100) := le_trans h2 (floor_le_rhe _)
  have h4 : (k : ℚ) ≤ (rhe (d * f * 100) : ℚ) := Int.cast_le.mpr h3
  unfold coolOffStep round2
  linarith [h4, hk]

theorem coolOffStep_twoDecimal (f d : ℚ) :
    ((rhe (d * f * 100) : ℚ)) = coolOffStep f d * 100 := by
  unfold coolOffStep round2
  field_simp

theorem iterate_coolOffStep_invariant (f d : ℚ) (hd : 0 ≤ d) (hf : 1 ≤ f)
    (hk : ∃ k : ℤ, (k : ℚ) = d * 100) :
    ∀ n : Nat, 0 ≤ (coolOffStep f)^[n] d
      ∧ ∃ k : ℤ, (k : ℚ) = (coolOffStep f)^[n] d * 100 := by
  intro n
  induction n with
  | zero => exact ⟨hd, hk⟩
  | succ m ih =>
      obtain ⟨hpos, k, hkk⟩ := ih
      rw [Function.iterate_succ_apply']
      constructor
      · exact le_trans hpos (le_coolOffStep f _ hpos hf k hkk)
      · exact ⟨rhe ((coolOffStep f)^[m] d * f * 100), coolOffStep_twoDecimal f _⟩

theorem getPage_cool_iterate (f d : ℚ) (anchors : List Anchor)
    (rest : List HttpResponse) :
    ∀ n : Nat,
      (getPage true f d (List.replicate n .status429 ++ .ok anchors :: rest)).cool
        = (coolOffStep f)^[n] d := by
  intro n
  induction n generalizing d with
  | zero => simp [getPage]
  | succ m ih =>
      rw [List.replicate_succ, List.cons_append]
      simp only [getPage, if_pos rfl, Function.iterate_succ_apply]
      exact ih (coolOffStep f d)

theorem find?_none_of_noCollision {cfg : Config} (h : noCollision cfg) :
    urlParameters.find? (fun p => (cfg.extraParams.map Prod.fst).contains p) = none := by
  apply List.find?_eq_none.mpr
  intro x hx
  simp only [Bool.not_eq_true]
  exact h x hx

theorem processAnchors_allNone (v : Bool) (cap : ℤ) :
    ∀ (anchors : List Anchor) (results : List ResultItem) (total : ℤ) (pc : Nat),
      (∀ a ∈ anchors, extractedLink a = none) →
      processAnchors v cap anchors results total pc = ⟨results, total, pc, false⟩ := by
  intro anchors
  induction anchors with
  | nil => intro results total pc _; rfl
  | cons a rest ih =>
      intro results total pc h
      have ha : extractedLink a = none := h a (List.mem_cons_self a rest)
      simp only [processAnchors, ha]
      exact ih results total pc fun b hb => h b (List.mem_cons_of_mem a hb)

theorem processAnchors_cap (v : Bool) (cap : ℤ) :
    ∀ (anchors : List Anchor) (results : List ResultItem) (total : ℤ) (pc : Nat),
      (results.length : ℤ) < cap →
      (((processAnchors v cap anchors results total pc).capHit = true →
          ((processAnchors v cap anchors results total pc).results.length : ℤ) = cap)
        ∧ ((processAnchors v cap anchors results total pc).capHit = false →
          ((processAnchors v cap anchors results total pc).results.length : ℤ) < cap)) := by
  intro anchors
  induction anchors with
  | nil =>
      intro results total pc hlt
      constructor
      · intro hcap
        simp [processAnchors] at hcap
      · intro _
        simpa [processAnchors] using hlt
  | cons a rest ih =>
      intro results total pc hlt
      cases ha : extractedLink a with
      | none =>
          simp only [processAnchors, ha]
          exact ih results total pc hlt
      | some link =>
          by_cases hctn : results.contains (ResultItem.str link) = true
          · have hnot : ¬ (cap ≤ (results.length : ℤ)) := not_le.mpr hlt
            simp only [processAnchors, ha, if_pos hctn, if_neg hnot]
            exact ih results total pc hlt
          · simp only [processAnchors, ha, if_neg hctn]
            by_cases hcap2 :
                cap ≤ (((results ++ [if v then
                    ResultItem.record (total + 1) (pyStrip a.title) (pyStrip a.descr) link
                  else ResultItem.str link]).length : ℤ))
            · simp only [if_pos hcap2]
              constructor
              · intro _
                have hlen : ((results ++ [if v then
                    ResultItem.record (total + 1) (pyStrip a.title) (pyStrip a.descr) link
                  else ResultItem.str link]).length : ℤ) = (results.length : ℤ) + 1 := by
                  simp
                omega
              · intro hfalse
                simp at hfalse
            · simp only [if_neg hcap2]
              exact ih _ _ _ (not_le.mp hcap2)

theorem searchLoop_ne_valueError (cfg : Config) :
    ∀ (fuel : Nat) (st : SearchState) (rs : List HttpResponse) (p : String),
      searchLoop cfg fuel st rs ≠ .valueError p := by
  intro fuel
  induction fuel with
  | zero =>
      intro st rs p h
      exact SearchOutcome.noConfusion h
  | succ n ih =>
      intro st rs p h
      simp only [searchLoop] at h
      split at h
      · split at h
        · exact SearchOutcome.noConfusion h
        · exact SearchOutcome.noConfusion h
        · split at h
          · exact SearchOutcome.noConfusion h
          · split at h
            · exact SearchOutcome.noConfusion h
            · exact ih _ _ _ h
      · exact SearchOutcome.noConfusion h

theorem searchLoop_capLength (cfg : Config) :
    ∀ (fuel : Nat) (st : SearchState) (rs : List HttpResponse)
      (res : List ResultItem) (reqs : Nat) (sl : List SleepEvent)
      (rest : List HttpResponse),
      (st.results.length : ℤ) < cfg.maxResults →
      searchLoop cfg fuel st rs = .done res .capReached reqs sl rest →
      (res.length : ℤ) = cfg.maxResults := by
  intro fuel
  induction fuel with
  | zero =>
      intro st rs res reqs sl rest _ h
      exact SearchOutcome.noConfusion h
  | succ n ih =>
      intro st rs res reqs sl rest hlt h
      simp only [searchLoop] at h
      split at h
      · split at h
        · exact SearchOutcome.noConfusion h
        · simp at h
        · next anchors heq =>
            split at h
            · next hcap =>
                have hres := ((processAnchors_cap cfg.verbose cfg.maxResults
                    anchors st.results st.total 0 hlt).1) hcap
                simp only [SearchOutcome.done.injEq] at h
                rw [← h.1]
                exact hres
            · split at h
              · simp at h
              · next hcap _ =>
                  have hlt2 := ((processAnchors_cap cfg.verbose cfg.maxResults
                      anchors st.results st.total 0 hlt).2)
                    (Bool.not_eq_true _ ▸ Bool.of_not_eq_true hcap)
                  exact ih _ _ _ _ _ _ hlt2 h
      · exact SearchOutcome.noConfusion h

theorem search_eq_loop (cfg : Config) (boot : List Anchor)
    (rs : List HttpResponse) (hc : noCollision cfg) :
    search cfg (.ok boot :: rs) =
      searchLoop cfg (rs.length + 1)
        ⟨cfg.start, cfg.cool0, [], 0, 1, []⟩ rs := by
  simp only [search, find?_none_of_noCollision hc, getPage]

theorem searchLoop_sentinel_unmanaged (cfg : Config) (fuel : Nat)
    (st : SearchState) (rest : List HttpResponse)
    (hm : cfg.manages429 = false) (hg : st.total ≤ cfg.maxResults) :
    searchLoop cfg (fuel + 1) st (.status429 :: rest) =
      .done (st.results ++ [.str "HTTP_429_DETECTED"]) .sentinel429
        (st.requests + 1) st.sleeps rest := by
  simp [searchLoop, if_pos hg, getPage, hm]

theorem searchLoop_zero_yield (cfg : Config) (fuel : Nat) (st : SearchState)
    (anchors : List Anchor) (rest : List HttpResponse)
    (hg : st.total ≤ cfg.maxResults)
    (ha : ∀ a ∈ anchors, extractedLink a = none) :
    searchLoop cfg (fuel + 1) st (.ok anchors :: rest) =
      .done st.results .pageExhausted (st.requests + 1) st.sleeps rest := by
  have hscan := processAnchors_allNone cfg.verbose cfg.maxResults anchors
    st.results st.total 0 ha
  simp [searchLoop, if_pos hg, getPage, hscan]

/-! ## Claim theorems -/

/-- Claim C5: the link filter maps `"/url?q=https://example.com/page&sa=U"`
to `"https://example.com/page"`, maps `"/url?url=https://example.org"` to
`"https://example.org"` via the `url`-parameter fallback, rejects
`"https://accounts.google.com/foo"` because its host contains the provider
domain substring, and rejects `"relative/path"` because the parsed URL has
no host component. -/
theorem c5_filter_concrete_cases :
    filter_search_result_urls "/url?q=https://example.com/page&sa=U"
        = some "https://example.com/page"
    ∧ filter_search_result_urls "/url?url=https://example.org"
        = some "https://example.org"
    ∧ filter_search_result_urls "https://accounts.google.com/foo" = none
    ∧ filter_search_result_urls "relative/path" = none :=
  ⟨rfl, rfl, rfl, rfl⟩

/-- Claim C8: `filter_search_result_urls` is total (it is a function into
`Option String`, so it always returns a URL string or `None`), and every
exception of its normalization and parsing pipeline is caught: whenever the
pipeline raises, the function returns `None` rather than propagating. -/
theorem c8_filter_catches_exceptions (link : String)
    (h : ∃ e, filterPipeline link = .error e) :
    filter_search_result_urls link = none := by
  obtain ⟨e, he⟩ := h
  simp [filter_search_result_urls, he]

/-- Witness for C8 at `"/url?a=b"`, an input whose pipeline raises
`KeyError` (neither `q` nor `url` in the query string). -/
theorem c8_filter_catches_exceptions_witness :
    filterPipeline "/url?a=b" = .error PyExc.keyError
    ∧ filter_search_result_urls "/url?a=b" = none :=
  ⟨rfl, c8_filter_catches_exceptions "/url?a=b" ⟨PyExc.keyError, rfl⟩⟩

/-- Claim C9: after construction `num` is at most 100 — values above 100
are clamped to 100, values at most 100 are kept unchanged. -/
theorem c9_num_clamped (n : ℤ) :
    initNum n ≤ 100 ∧ (n ≤ 100 → initNum n = n) := by
  unfold initNum
  constructor
  · split <;> omega
  · intro h
    split <;> omega

/-- Witness for C9 at `num = 250` (clamped) and `num = 50` (unchanged). -/
theorem c9_num_clamped_witness : initNum 250 ≤ 100 ∧ initNum 50 = 50 :=
  ⟨(c9_num_clamped 250).1, (c9_num_clamped 50).2 (by decide)⟩

/-- Claim C4 (counterexample): the duration CAN decrease.  With cool-off
duration `2.0049` minutes and escalation factor `1.000001`, one detected
429 inside `get_page` leaves cool-off duration `2 < 2.0049`: rounding to
two decimals shaved the excess decimals off, so the claim that the duration
is never decreased by any operation fails. -/
theorem c4_cool_off_counterexample :
    (getPage true (1000001 / 1000000) (20049 / 10000)
        [.status429, .ok []]).cool < 20049 / 10000 := by
  have h1 : (getPage true (1000001 / 1000000) (20049 / 10000)
      [.status429, .ok []]).cool
      = coolOffStep (1000001 / 1000000) (20049 / 10000) := by
    simp [getPage]
  have hfloor : ⌊(20049 / 10000 : ℚ) * (1000001 / 1000000) * 100⌋ = 200 := by
    norm_num [Int.floor_eq_iff]
  rw [h1]
  unfold coolOffStep round2 rhe
  rw [hfloor]
  norm_num

/-- Claim C4 (amended): after `N` consecutive 429 events the cool-off
duration equals the `N`-fold iterate of `d ↦ round(d * f, 2)` applied to
the initial duration (re-rounded after each event); and provided the factor
is at least 1 and the duration is a nonnegative whole number of hundredths
(at most two decimals, as any duration the step itself produced is), the
duration never decreases. -/
theorem c4_cool_off_amended (f d : ℚ) (n : Nat) (anchors : List Anchor)
    (rest : List HttpResponse) :
    (getPage true f d (List.replicate n .status429 ++ .ok anchors :: rest)).cool
        = (coolOffStep f)^[n] d
    ∧ (0 ≤ d → 1 ≤ f → (∃ k : ℤ, (k : ℚ) = d * 100) →
        (coolOffStep f)^[n] d ≤ (coolOffStep f)^[n + 1] d) := by
  constructor
  · exact getPage_cool_iterate f d anchors rest n
  · intro hd hf hk
    obtain ⟨hpos, k, hkk⟩ := iterate_coolOffStep_invariant f d hd hf hk n
    rw [Function.iterate_succ_apply']
    exact le_coolOffStep f _ hpos hf k hkk

/-- Witness for C4 (amended) at factor `1.1`, duration `60`, one event:
the cool-off after the event is the first iterate, and the iterates do not
decrease. -/
theorem c4_cool_off_amended_witness :
    (getPage true (11 / 10) 60
        (List.replicate 1 .status429 ++ .ok [] :: [])).cool
      = (coolOffStep (11 / 10))^[1] 60
    ∧ (coolOffStep (11 / 10))^[1] 60 ≤ (coolOffStep (11 / 10))^[1 + 1] 60 :=
  ⟨(c4_cool_off_amended (11 / 10) 60 1 [] []).1,
   (c4_cool_off_amended (11 / 10) 60 1 [] []).2 (by norm_num) (by norm_num)
     ⟨6000, by norm_num⟩⟩

/-- Claim C1 (code bug, failing input): with `verbose_output=True` the
dedup check `link not in self.search_result_list` compares a string against
a list of dicts and therefore never matches, so the same anchor fed on two
different pages yields TWO records carrying the same URL — the accumulated
result collection does contain the same URL twice, against the stated
invariant (which the plain-URL mode does maintain). -/
theorem c1_verbose_duplicate_urls :
    search verboseConfig [.ok [], .ok [wrapAnchor], .ok [wrapAnchor], .ok []] =
      .done [.record 1 "t" "d" "https://example.com/page",
             .record 2 "t" "d" "https://example.com/page"]
        .pageExhausted 4 [.interPage 7, .interPage 7] [] := rfl

/-- Claim C2: with `yagooglesearch_manages_http_429s=False`, a page fetch
hitting HTTP 429 makes `get_page` return the sentinel `"HTTP_429_DETECTED"`
at once — no sleep, no retry, no cool-off escalation, following responses
untouched — and `search()` appends the sentinel to the result list and
returns it immediately: no extraction happened (the sentinel is the only
element), exactly two requests were issued (home page and the one results
page), and the remaining responses were never requested. -/
theorem c2_unmanaged_429_sentinel (cfg : Config) (cool : ℚ)
    (boot : List Anchor) (rest : List HttpResponse)
    (hm : cfg.manages429 = false) (hc : noCollision cfg)
    (hcap : 0 ≤ cfg.maxResults) :
    getPage false cfg.factor cool (.status429 :: rest) =
        ⟨.sentinel, rest, cool, []⟩
    ∧ search cfg (.ok boot :: .status429 :: rest) =
        .done [.str "HTTP_429_DETECTED"] .sentinel429 2 [] rest := by
  refine ⟨by simp [getPage], ?_⟩
  rw [search_eq_loop cfg boot _ hc]
  have h := searchLoop_sentinel_unmanaged cfg (rest.length + 1)
    ⟨cfg.start, cfg.cool0, [], 0, 1, []⟩ rest hm (by simpa using hcap)
  simpa using h

/-- Witness for C2: the default configuration with 429 self-management
disabled, one 429 response after the bootstrap, one untouched response. -/
theorem c2_unmanaged_429_sentinel_witness :
    getPage false unmanagedConfig.factor 60 [.status429, .ok [wrapAnchor]]
        = ⟨.sentinel, [.ok [wrapAnchor]], 60, []⟩
    ∧ search unmanagedConfig [.ok [], .status429, .ok [wrapAnchor]] =
        .done [.str "HTTP_429_DETECTED"] .sentinel429 2 [] [.ok [wrapAnchor]] :=
  c2_unmanaged_429_sentinel unmanagedConfig 60 [] [.ok [wrapAnchor]]
    rfl (by decide) (by decide)

/-- Claim C3: if the extra-parameters map contains a key of the built-in
set `{btnG, cr, hl, num, q, safe, start, tbs, lr}`, `search()` raises
`ValueError` before any network activity — the outcome is the error for
every pending-response list, i.e. it does not depend on the network at all;
if no key collides, no `ValueError` is ever raised. -/
theorem c3_param_collision (cfg : Config) (rs rs' : List HttpResponse) :
    ((∃ p ∈ urlParameters, (cfg.extraParams.map Prod.fst).contains p = true) →
        (∃ p ∈ urlParameters, search cfg rs = .valueError p)
          ∧ search cfg rs = search cfg rs')
    ∧ (noCollision cfg → ∀ p, search cfg rs ≠ .valueError p) := by
  constructor
  · intro hcol
    have hsome :
        (urlParameters.find?
          (fun p => (cfg.extraParams.map Prod.fst).contains p)).isSome := by
      rw [List.find?_isSome]
      obtain ⟨p, hp, hcp⟩ := hcol
      exact ⟨p, hp, hcp⟩
    obtain ⟨q, hq⟩ := Option.isSome_iff_exists.mp hsome
    have hqmem : q ∈ urlParameters := List.mem_of_find?_eq_some hq
    have h1 : search cfg rs = .valueError q := by
      simp only [search]
      rw [hq]
    have h2 : search cfg rs' = .valueError q := by
      simp only [search]
      rw [hq]
    exact ⟨⟨q, hqmem, h1⟩, by rw [h1, h2]⟩
  · intro hnc p hne
    simp only [search, find?_none_of_noCollision hnc] at hne
    split at hne
    · exact SearchOutcome.noConfusion hne
    · exact searchLoop_ne_valueError cfg _ _ _ _ hne

/-- Witness for C3: `extra_params = {filter: 0, num: 50}` collides on `num`
and yields the `ValueError` outcome independently of the responses, while
the default configuration without extra parameters never does. -/
theorem c3_param_collision_witness :
    (∃ p ∈ urlParameters, search collisionConfig [] = .valueError p)
    ∧ search collisionConfig [] = search collisionConfig [.ok []]
    ∧ (∀ p, search baseConfig [] ≠ .valueError p) :=
  ⟨((c3_param_collision collisionConfig [] [.ok []]).1 (by decide)).1,
   ((c3_param_collision collisionConfig [] [.ok []]).1 (by decide)).2,
   (c3_param_collision baseConfig [] []).2 (by decide)⟩

/-- Claim C6: with a max-results cap of at least 1, whenever `search()`
returns because the cap was reached while processing anchors mid-page, the
returned result list has length exactly equal to the cap — never more. -/
theorem c6_cap_reached_mid_page (cfg : Config) (rs rest : List HttpResponse)
    (res : List ResultItem) (reqs : Nat) (sl : List SleepEvent)
    (h1 : 1 ≤ cfg.maxResults)
    (h2 : search cfg rs = .done res .capReached reqs sl rest) :
    (res.length : ℤ) = cfg.maxResults := by
  simp only [search] at h2
  split at h2
  · exact SearchOutcome.noConfusion h2
  · split at h2
    · exact SearchOutcome.noConfusion h2
    · exact searchLoop_capLength cfg _ _ _ _ _ _ _ (by simpa using h1) h2

/-- Witness for C6: cap 1, a page with two valid anchors — the search stops
at the first anchor, leaves the second anchor and the following page
untouched, and returns exactly one result. -/
theorem c6_cap_reached_mid_page_witness :
    search capOneConfig [.ok [], .ok [orgAnchorA, orgAnchorB], .ok []] =
      .done [.str "https://example.org/a"] .capReached 2 [] [.ok []]
    ∧ (([ResultItem.str "https://example.org/a"] : List ResultItem).length : ℤ)
        = capOneConfig.maxResults :=
  ⟨rfl,
   c6_cap_reached_mid_page capOneConfig
     [.ok [], .ok [orgAnchorA, orgAnchorB], .ok []] [.ok []]
     [.str "https://example.org/a"] 2 [] (by decide) rfl⟩

/-- Claim C7: a fetched results page on which zero valid links are found
ends the search at the end of that page with the results accumulated so
far, issuing no further page request; in particular a zero-yield first page
returns the empty list after only the bootstrap request and that single
page request, leaving every following response untouched. -/
theorem c7_zero_yield_terminates (cfg : Config) (st : SearchState)
    (fuel : Nat) (boot anchors : List Anchor) (rest : List HttpResponse)
    (ha : ∀ a ∈ anchors, extractedLink a = none) :
    (st.total ≤ cfg.maxResults →
        searchLoop cfg (fuel + 1) st (.ok anchors :: rest) =
          .done st.results .pageExhausted (st.requests + 1) st.sleeps rest)
    ∧ (noCollision cfg → 0 ≤ cfg.maxResults →
        search cfg (.ok boot :: .ok anchors :: rest) =
          .done [] .pageExhausted 2 [] rest) := by
  constructor
  · intro hg
    exact searchLoop_zero_yield cfg fuel st anchors rest hg ha
  · intro hc hcap
    rw [search_eq_loop cfg boot _ hc]
    have h := searchLoop_zero_yield cfg (rest.length + 1)
      ⟨cfg.start, cfg.cool0, [], 0, 1, []⟩ anchors rest (by simpa using hcap) ha
    simpa using h

/-- Witness for C7: a first page whose anchors are an href-less anchor, a
relative URL and a provider link, after the bootstrap — empty result list,
two requests, no sleeps. -/
theorem c7_zero_yield_terminates_witness :
    search baseConfig [.ok [], .ok noLinkAnchors] =
      .done [] .pageExhausted 2 [] [] :=
  (c7_zero_yield_terminates baseConfig ⟨0, 60, [], 0, 0, []⟩ 0 [] noLinkAnchors []
      (by decide)).2 (by decide) (by decide)

/-- Claim C10 (counterexample): with `max_search_result_urls_to_return = -1`
(which satisfies the premise cap ≤ 0), the loop guard
`total_valid_links_found <= cap` is `0 <= -1`, which is False: `search()`
issues only the home-page bootstrap request, never fetches a results page
(the claim asserts it fetches at least one), and falls off the loop
returning `None` rather than a list. -/
theorem c10_cap_negative_counterexample :
    search capNegConfig [.ok [], .ok [orgAnchorA]] =
      .noneReturned 1 [] [.ok [orgAnchorA]] := rfl

/-- Claim C10 (amended): for cap = 0 exactly, `search()` does not return
immediately — the guard holds at 0, so it issues the bootstrap request and
one results-page request, and since the cap check runs only after an anchor
is processed, a page whose first anchor is valid produces a returned list
of length 1, exceeding the cap by one; for cap < 0 the guard fails at once
and `search()` returns `None` after only the bootstrap request. -/
theorem c10_cap_zero_amended (cfg : Config) (boot : List Anchor) (a : Anchor)
    (anchors : List Anchor) (rest : List HttpResponse) (l : String)
    (hc : noCollision cfg) (hv : cfg.verbose = false)
    (hcap : cfg.maxResults = 0) (hl : extractedLink a = some l) :
    search cfg (.ok boot :: .ok (a :: anchors) :: rest) =
      .done [.str l] .capReached 2 [] rest := by
  rw [search_eq_loop cfg boot _ hc]
  simp [searchLoop, getPage, processAnchors, hl, hv, hcap]

/-- Witness for C10 (amended): cap 0 and a first page with two valid
anchors — one result is returned (cap exceeded by one), after exactly two
requests, with the following page untouched. -/
theorem c10_cap_zero_amended_witness :
    search capZeroConfig [.ok [], .ok [orgAnchorA, orgAnchorB], .ok []] =
      .done [.str "https://example.org/a"] .capReached 2 [] [.ok []] :=
  c10_cap_zero_amended capZeroConfig [] orgAnchorA [orgAnchorB] [.ok []]
    "https://example.org/a" (by decide) rfl rfl rfl

end YGS
